import Mathlib

/-!
Verification of the `bi-agent-streamlit` SQL/chart agent.

The Python sources (`utils.py`, `sql_agent_langgraph.py`) are embedded
shallowly: Python strings become `List Char`, Python string methods
(`strip`, `lower`, `upper`, `replace`, `split`, `startswith`, `in`) become
structurally recursive Lean functions with the same semantics, the regexes
used by the code are compiled by hand into deterministic scanners, and the
effectful parts (the language model, `pd.read_sql`, `pd.DataFrame`, `exec`
of the chart script, `plt.savefig`) become oracle functions supplied as
parameters, with Python exceptions made explicit through `Except`.
-/

/-- Python strings are modelled as lists of characters. -/
abbrev Str := List Char

/-- The characters Python's `str.strip()` removes (ASCII whitespace). -/
def isSpaceC (c : Char) : Bool :=
  c = ' ' || c = '\t' || c = '\n' || c = '\r' || c = '\x0b' || c = '\x0c'

/-- Python `s.strip()`: drop whitespace from both ends. -/
def pyStrip (s : Str) : Str :=
  ((s.dropWhile isSpaceC).reverse.dropWhile isSpaceC).reverse

/-- Python `s.lower()` (ASCII). -/
def lowerL (s : Str) : Str := s.map Char.toLower

/-- Python `s.upper()` (ASCII). -/
def upperL (s : Str) : Str := s.map Char.toUpper

/-- Python `pat in s`: substring containment. -/
def containsSub (pat : Str) : Str → Bool
  | [] => pat.isEmpty
  | c :: rest => pat.isPrefixOf (c :: rest) || containsSub pat rest

/-- Fuel-driven core of Python `s.replace(pat, rep)` (leftmost,
non-overlapping; `pat` is never empty at call sites). -/
def pyReplaceFuel (pat rep : Str) : Nat → Str → Str
  | _, [] => []
  | 0, s => s
  | fuel+1, c :: rest =>
    if pat.isPrefixOf (c :: rest) then
      rep ++ pyReplaceFuel pat rep fuel (List.drop (pat.length - 1) rest)
    else
      c :: pyReplaceFuel pat rep fuel rest

/-- Python `s.replace(pat, rep)`. -/
def pyReplace (pat rep s : Str) : Str := pyReplaceFuel pat rep s.length s

/-- Prepend a character to the first fragment of a split result. -/
def consHead (c : Char) : List Str → List Str
  | [] => [[c]]
  | s :: ss => (c :: s) :: ss

/-- Fuel-driven core of Python `s.split(sep)` for a non-empty separator
string (splits at each leftmost non-overlapping occurrence). -/
def splitSubFuel (sep : Str) : Nat → Str → List Str
  | _, [] => [[]]
  | 0, s => [s]
  | fuel+1, c :: rest =>
    if sep.isPrefixOf (c :: rest) then
      [] :: splitSubFuel sep fuel (List.drop (sep.length - 1) rest)
    else
      consHead c (splitSubFuel sep fuel rest)

/-- Python `s.split(sep)` for a non-empty separator string. -/
def splitSub (sep s : Str) : List Str := splitSubFuel sep s.length s

/-- Python `s.split(sep)` for a single-character separator. -/
def splitOnChar (sep : Char) : Str → List Str
  | [] => [[]]
  | c :: rest =>
    if c = sep then [] :: splitOnChar sep rest
    else consHead c (splitOnChar sep rest)

/-- Python `"\n".join(lines)`. -/
def joinNl : List Str → Str
  | [] => []
  | [l] => l
  | l :: ls => l ++ '\n' :: joinNl ls

/-- Everything after the first occurrence of `pat` (`pat` non-empty),
`none` when `pat` does not occur. -/
def afterSub (pat : Str) : Str → Option Str
  | [] => none
  | c :: rest =>
    if pat.isPrefixOf (c :: rest) then some (List.drop (pat.length - 1) rest)
    else afterSub pat rest

/-- Everything before the first occurrence of `pat` (`pat` non-empty),
`none` when `pat` does not occur. -/
def beforeSub (pat : Str) : Str → Option Str
  | [] => none
  | c :: rest =>
    if pat.isPrefixOf (c :: rest) then some []
    else (beforeSub pat rest).map (fun s => c :: s)

/-- Python `f"{n}"` for a natural number. -/
def natStr (n : Nat) : Str := Nat.toDigits 10 n

/-! ## `utils.py` -/

/-- The backtick character (code 96), written numerically. -/
def btick : Char := Char.ofNat 96

/-- The placeholder table name replaced by `extract_sql_code`. -/
def ytn : Str := "your_table_name".data

/-- The replacement table name used by `extract_sql_code`. -/
def ssd : Str := "store_sales_data".data

/-- The SQL keywords `extract_sql_code` looks for (upper case). -/
def kwUp : List Str :=
  ["SELECT".data, "WITH".data, "UPDATE".data, "DELETE".data, "INSERT".data]

/-- The backtick branch of `extract_sql_code` (utils.py lines 37-42): the
first part between backticks whose upper-cased form contains a SQL keyword. -/
def sqlFromParts : List Str → Option Str
  | [] => none
  | p :: ps =>
    if kwUp.any (fun k => containsSub k (upperL p)) then some p
    else sqlFromParts ps

/-- The direct-detection branch of `extract_sql_code` (utils.py lines
46-49): the first line whose upper-cased, stripped form starts with a SQL
keyword. -/
def sqlFromLines : List Str → Option Str
  | [] => none
  | l :: ls =>
    if kwUp.any (fun k => k.isPrefixOf (pyStrip (upperL l))) then some l
    else sqlFromLines ls

/-- Function `extract_sql_code` from `utils.py` (lines 1-52), on the string form of
the response: remove the `SQLQuery:` prefix, strip, replace the placeholder
table name, then try (a) a ```sql fenced block of the lower-cased text,
(b) a backtick-delimited part containing a SQL keyword, (c) a line starting
with a SQL keyword, (d) the whole cleaned text. -/
def extract_sql_code (response : Str) : Str :=
  let t1 := pyStrip (pyReplace ("SQLQuery:".data) [] response)
  let text := pyReplace ytn ssd t1
  if containsSub ("```sql".data) (lowerL text) then
    let seg := (splitSub ("```sql".data) (lowerL text)).getD 1 []
    let sql := pyStrip ((splitSub ("```".data) seg).getD 0 [])
    pyReplace ytn ssd sql
  else
    match (if text.contains btick then sqlFromParts (splitOnChar btick text) else none) with
    | some p => pyReplace ytn ssd (pyStrip p)
    | none =>
      match sqlFromLines (splitOnChar '\n' text) with
      | some l => pyReplace ytn ssd (pyStrip l)
      | none => pyReplace ytn ssd (pyStrip text)

/-- The classification prompt built by `tag_question_type` (utils.py
lines 106-113). -/
def tagPromptFor (q : Str) : Str :=
  ("\n    Classify the following user query as either 'chart' or 'table'. \n    If the user is asking for numerical trends, visualizations, or distributions, return 'chart'. \n    Otherwise, return 'table'.\n    \n    User query: \"".data)
    ++ q ++ ("\"\n    Output:\n    ".data)

/-- Function `tag_question_type` from `utils.py` (lines 102-121); `llm` maps the
prompt to the model's response text. -/
def tag_question_type (q : Str) (llm : Str → Str) : Str :=
  let response := lowerL (pyStrip (llm (tagPromptFor q)))
  if response = "chart".data ∨ response = "table".data then response
  else "table".data

/-- The heuristic keywords of `extract_python_code` (utils.py line 154). -/
def pyKw : List Str :=
  ["def ".data, "import ".data, "plt.".data, "sns.".data, "px.".data, "fig.".data]

/-- A line matches the fallback heuristic of `extract_python_code`. -/
def hasKw (l : Str) : Bool := pyKw.any (fun k => containsSub k l)

/-- A line contains an actual plotting-library call (`plt.`, `sns.`,
`px.`, `fig.`) — the notion the specification's words describe. -/
def plotCall (l : Str) : Bool :=
  ["plt.".data, "sns.".data, "px.".data, "fig.".data].any (fun k => containsSub k l)

/-- The regex `` ```python\n(.*?)\n``` `` with `re.DOTALL` (utils.py line
149): content between the first ```` ```python ```` fence opener and the
first closing fence after it. -/
def pyFence (t : Str) : Option Str :=
  (afterSub ("```python\n".data) t).bind (fun r => beforeSub ("\n```".data) r)

/-- The cleaning step of `extract_python_code` (utils.py line 146). -/
def cleanPy (response : Str) : Str :=
  pyStrip (pyReplace ("Python Script:".data) [] response)

/-- Function `extract_python_code` from `utils.py` (lines 127-166). -/
def extract_python_code (response : Str) : Str :=
  let text := cleanPy response
  match pyFence text with
  | some m => pyStrip m
  | none =>
    let ex := (splitOnChar '\n' text).filter hasKw
    if ex.isEmpty then pyStrip text else pyStrip (joinNl ex)

/-- Function `split_sql_statements` from `utils.py` (lines 168-195): drop the lines
whose stripped form starts with `--`, rejoin, split on `;`, strip each
fragment and discard empties. -/
def split_sql_statements (sql_text : Str) : List Str :=
  if sql_text.isEmpty then []
  else
    let lines := splitOnChar '\n' sql_text
    let cleaned_lines := lines.filter (fun l => !(("--".data).isPrefixOf (pyStrip l)))
    let cleaned_sql := joinNl cleaned_lines
    ((splitOnChar ';' cleaned_sql).map pyStrip).filter (fun st => !st.isEmpty)

/-- Function `is_multi_statement_sql` from `utils.py` (lines 197-211). -/
def is_multi_statement_sql (sql_query : Str) : Bool :=
  if sql_query.isEmpty then false
  else decide ((split_sql_statements sql_query).length > 1)

/-- Python's regex class `\w` (ASCII fragment). -/
def wordChar (c : Char) : Bool := c.isAlphanum || c = '_'

/-- The regex `FROM\s+(\w+)` with `re.IGNORECASE` (utils.py line 226):
scan for the first case-insensitive `from` followed by at least one
whitespace character and at least one word character; the captured group
is the maximal word-character run. -/
def fromScan : Str → Option Str
  | [] => none
  | c :: rest =>
    let s := c :: rest
    if lowerL (s.take 4) = ("from".data) then
      let after := s.drop 4
      let sp := after.takeWhile isSpaceC
      let w := (after.drop sp.length).takeWhile wordChar
      if sp.isEmpty || w.isEmpty then fromScan rest else some w
    else fromScan rest

/-- The lazy `.*?(\w+)\s+table` tail of the comment regex (utils.py line
231): advance within the current line (`.` does not match a newline) until
a word run followed by whitespace and the literal `table` matches. -/
def commentTail : Str → Option Str
  | [] => none
  | c :: rest =>
    let s := c :: rest
    let w := s.takeWhile wordChar
    let afterW := s.drop w.length
    let sp := afterW.takeWhile isSpaceC
    let afterSp := afterW.drop sp.length
    if !w.isEmpty && !sp.isEmpty && lowerL (afterSp.take 5) = ("table".data) then
      some w
    else if c = '\n' then none
    else commentTail rest

/-- The regex `--.*?(\w+)\s+table` with `re.IGNORECASE` (utils.py line
231): try each `--` occurrence from the left, matching the lazy tail. -/
def commentScan : Str → Option Str
  | [] => none
  | c :: rest =>
    if ("--".data).isPrefixOf (c :: rest) then
      match commentTail (List.drop 1 rest) with
      | some w => some w
      | none => commentScan rest
    else commentScan rest

/-- Function `extract_table_name_from_sql` from `utils.py` (lines 213-235). -/
def extract_table_name_from_sql (s : Str) : Str :=
  match fromScan s with
  | some w => w
  | none =>
    match commentScan s with
    | some w => w
    | none => "Unknown Table".data

/-! ## `sql_agent_langgraph.py`: state and node functions -/

/-- A pandas DataFrame rendered as the dict `{col: df[col].tolist()}`:
an ordered association of column names to value lists. -/
abbrev Frame := List (Str × List Int)

/-- One element of the `multi_table_data` list built by
`convert_dataframe` (lines 90-101).  A Python dict key that is absent is
a `none` field: successful entries carry `dataframe` and no `error`,
failed entries carry `error` and no `dataframe`. -/
structure TableEntry where
  table_name : Str
  dataframe : Option Frame
  error : Option Str
  sql_statement : Str
deriving DecidableEq

/-- The value stored under the `data` key: either a single-table column
dict, or the `{"multi_table": True, "tables": [...]}` dict. -/
inductive DataVal where
  | single : Frame → DataVal
  | multi : List TableEntry → DataVal
deriving DecidableEq

/-- The `outputs` dict assembled by `state_printer` (lines 244-272); each
field is a dict key that may be present or absent. -/
structure Outputs where
  multi_table_data : Option (List TableEntry)
  dataframe : Option Frame
  error : Option Str
  chart : Option Str
  message : Option Str
deriving DecidableEq

/-- Python `not outputs` on the dict: every key absent. -/
def Outputs.isEmpty (o : Outputs) : Bool :=
  o.multi_table_data.isNone && o.dataframe.isNone && o.error.isNone
    && o.chart.isNone && o.message.isNone

/-- The `GraphState` TypedDict (lines 41-48), plus the `next` key the
router adds (line 115).  Keys are optional: state starts with only
`question` and nodes add keys as the pipeline runs. -/
structure GraphState where
  question : Str
  sql_query : Option Str
  data : Option DataVal
  tag : Option Str
  chart_script : Option Str
  chart_output : Option Str
  final_output : Option Outputs
  next : Option Str
deriving DecidableEq

/-- The initial state `{"question": QUESTION}`. -/
def initialState (q : Str) : GraphState :=
  { question := q, sql_query := none, data := none, tag := none,
    chart_script := none, chart_output := none, final_output := none, next := none }

/-- The effectful dependencies of the pipeline, as oracles.  `runSql`
is `pd.read_sql` on the connection, `toDf` is `pd.DataFrame` on a data
dict, `execChart` is `exec(chart_script, ...)` receiving the number of
open matplotlib figures and returning the new number (or raising), and
`save` is `os.makedirs` plus `plt.savefig` to `savePath`.  `tagLlm` maps
the classification prompt to the model's reply; `sqlGen` maps the
question to the SQL chain's raw output; `chartLlm` maps the question and
the data (the two values interpolated into the chart prompt) to the
model's reply. -/
structure Oracles where
  tagLlm : Str → Str
  sqlGen : Str → Str
  runSql : Str → Except Str Frame
  chartLlm : Str → DataVal → Str
  toDf : DataVal → Except Str Frame
  execChart : Nat → Except Str Nat
  save : Except Str Unit
  savePath : Str

/-- Node `process_question` (lines 53-59). -/
def process_question (llm : Str → Str) (st : GraphState) : GraphState :=
  { st with tag := some (tag_question_type st.question llm) }

/-- Node `generate_sql` (lines 61-68). -/
def generate_sql (gen : Str → Str) (st : GraphState) : GraphState :=
  { st with sql_query := some (extract_sql_code (gen st.question)) }

/-- One entry of the loop body of `convert_dataframe` (lines 84-101):
execute statement number `i` (0-based) and build its result dict;
an exception is recorded with the 1-based label and does not escape. -/
def mkEntry (runSql : Str → Except Str Frame) (st : Str) (i : Nat) : TableEntry :=
  match runSql st with
  | Except.ok df =>
      { table_name := extract_table_name_from_sql st,
        dataframe := some df, error := none, sql_statement := st }
  | Except.error e =>
      { table_name := ("Error in Statement ".data) ++ natStr (i + 1),
        dataframe := none, error := some e, sql_statement := st }

/-- The `for i, statement in enumerate(statements)` loop of
`convert_dataframe` (lines 84-101). -/
def runStatements (runSql : Str → Except Str Frame) : List Str → Nat → List TableEntry
  | [], _ => []
  | st :: rest, i => mkEntry runSql st i :: runStatements runSql rest (i + 1)

/-- Node `convert_dataframe` (lines 70-108).  In the single-statement branch
`pd.read_sql` is not guarded, so its exception propagates (`Except.error`);
in the multi-statement branch every exception is caught per statement. -/
def convert_dataframe (runSql : Str → Except Str Frame) (st : GraphState) :
    Except Str GraphState :=
  let q := st.sql_query.getD []
  if is_multi_statement_sql q then
    Except.ok { st with
      data := some (DataVal.multi (runStatements runSql (split_sql_statements q) 0)) }
  else
    match runSql q with
    | Except.ok df => Except.ok { st with data := some (DataVal.single df) }
    | Except.error e => Except.error e

/-- Node `conditional_router` (lines 110-115). -/
def conditional_router (st : GraphState) : GraphState :=
  { st with next := some (st.tag.getD ("table".data)) }

/-- Node `generate_chart_instructions` (lines 118-166): with no data, store an
error marker as the script; otherwise store the Python code extracted
from the model's reply to the chart prompt. -/
def generate_chart_instructions (chartLlm : Str → DataVal → Str) (st : GraphState) :
    GraphState :=
  match st.data with
  | none => { st with chart_script := some ("Error: No DataFrame in state.".data) }
  | some d =>
      { st with chart_script := some (extract_python_code (chartLlm st.question d)) }

/-- Node `execute_chart_code` (lines 169-242).  The returned `Nat` is the
number of open matplotlib figures when the function exits.  The script
check (line 176) returns early before any figure work; `pd.DataFrame`
(line 183) runs before the `try`, so its exception propagates; inside the
`try`, `plt.close('all')` ran (0 figures), `plt.figure` opens one, `exec`
runs with it, and on success, on `savefig` failure and on script failure
alike `plt.close('all')` (lines 228, 238, 242) leaves 0 figures. -/
def execute_chart_code (o : Oracles) (st : GraphState) (figs : Nat) :
    Except Str (GraphState × Nat) :=
  let script := st.chart_script.getD []
  if script.isEmpty || ("Error".data).isPrefixOf script then
    Except.ok ({ st with chart_output := some ("Error: No chart script available".data) }, figs)
  else
    match o.toDf (st.data.getD (DataVal.single [])) with
    | Except.error e => Except.error e
    | Except.ok _ =>
      match o.execChart 1 with
      | Except.error e =>
          Except.ok ({ st with
            chart_output := some (("Error executing chart code: ".data) ++ e) }, 0)
      | Except.ok _ =>
        match o.save with
        | Except.error e =>
            Except.ok ({ st with
              chart_output := some (("Error executing chart code: ".data) ++ e) }, 0)
        | Except.ok _ =>
            Except.ok ({ st with chart_output := some o.savePath }, 0)

/-- The `outputs` dict built by `state_printer` (lines 249-269). -/
def outputsFor (toDf : DataVal → Except Str Frame) (st : GraphState) : Outputs :=
  let o0 : Outputs :=
    { multi_table_data := none, dataframe := none, error := none,
      chart := none, message := none }
  let o1 := match st.data with
    | none => o0
    | some (DataVal.multi tables) => { o0 with multi_table_data := some tables }
    | some (DataVal.single fr) =>
      match toDf (DataVal.single fr) with
      | Except.ok df => { o0 with dataframe := some df }
      | Except.error e =>
          { o0 with error := some (("Error creating DataFrame: ".data) ++ e) }
  let o2 := match st.chart_output with
    | none => o1
    | some c => { o1 with chart := some c }
  if o2.isEmpty then { o2 with message := some ("No valid output found.".data) }
  else o2

/-- Node `state_printer` (lines 244-272). -/
def state_printer (toDf : DataVal → Except Str Frame) (st : GraphState) : GraphState :=
  { st with final_output := some (outputsFor toDf st) }

/-- The compiled DAG of `build_dag` (lines 293-339): entry at
`process_question`, then `generate_sql`, `convert_dataframe`,
`conditional_router`; the conditional edge on `next` routes `"chart"`
through `generate_chart_instructions` and `execute_chart_code` before
`state_printer`, and `"table"` directly to `state_printer`. -/
def run_dag (o : Oracles) (q : Str) : Except Str (GraphState × Nat) :=
  let s1 := process_question o.tagLlm (initialState q)
  let s2 := generate_sql o.sqlGen s1
  match convert_dataframe o.runSql s2 with
  | Except.error e => Except.error e
  | Except.ok s3 =>
    let s4 := conditional_router s3
    if s4.next = some ("chart".data) then
      let s5 := generate_chart_instructions o.chartLlm s4
      match execute_chart_code o s5 0 with
      | Except.error e => Except.error e
      | Except.ok (s6, figs) => Except.ok (state_printer o.toDf s6, figs)
    else
      Except.ok (state_printer o.toDf s4, 0)

/-! ## Concrete instances used by the witnesses -/

/-- A default entry used only as the out-of-range value of `List.getD`. -/
def defaultEntry : TableEntry :=
  { table_name := [], dataframe := none, error := none, sql_statement := [] }

/-- Whether an `Except` value is an exception. -/
def isErrExc (e : Except Str Frame) : Bool :=
  match e with
  | Except.error _ => true
  | Except.ok _ => false

/-- Concrete `pd.read_sql` oracle: the first statement succeeds, every
other one raises. -/
def rW : Str → Except Str Frame := fun s =>
  if s = "SELECT 1".data then Except.ok [("a".data, [1])]
  else Except.error ("no such table: t2".data)

/-- Concrete state holding a two-statement SQL blob. -/
def stW : GraphState :=
  { initialState ("q".data) with sql_query := some ("SELECT 1; SELECT 2".data) }

/-- Concrete `pd.read_sql` oracle that always raises. -/
def rW2 : Str → Except Str Frame := fun _ => Except.error ("boom".data)

/-- Concrete state holding another two-statement SQL blob. -/
def stW2 : GraphState :=
  { initialState ("q".data) with sql_query := some ("SELECT 1;\nSELECT 2;".data) }


/-- Concrete one-column frame used by the pipeline checks. -/
def frW : Frame := [("c".data, [(1 : Int)])]

/-- Concrete oracles for the pipeline check: classification says table,
the SQL chain emits a single statement that succeeds, the chart script
would raise. -/
def oA : Oracles :=
  { tagLlm := fun _ => "table".data, sqlGen := fun _ => "SELECT 1".data,
    runSql := fun _ => Except.ok frW,
    chartLlm := fun _ _ => "plt.plot(df)".data,
    toDf := fun d => match d with
      | DataVal.single f => Except.ok f
      | DataVal.multi _ => Except.error [],
    execChart := fun _ => Except.error ("boom".data),
    save := Except.ok (), savePath := "p.png".data }

/-- The same oracles with the classification answering chart. -/
def oB : Oracles := { oA with tagLlm := fun _ => "chart".data }

/-- The final state of the table-routed pipeline run under `oA`. -/
def stA : GraphState :=
  state_printer oA.toDf (conditional_router
    { initialState ("q".data) with
      tag := some ("table".data),
      sql_query := some ("SELECT 1".data),
      data := some (DataVal.single frW) })

/-- Concrete oracles for the chart-failure check: the script raises. -/
def oW4 : Oracles :=
  { tagLlm := fun _ => "chart".data, sqlGen := fun _ => [],
    runSql := fun _ => Except.error [], chartLlm := fun _ _ => [],
    toDf := fun _ => Except.ok [], execChart := fun _ => Except.error ("boom".data),
    save := Except.ok (), savePath := "p.png".data }

/-- Concrete state for the chart-failure check. -/
def stW4 : GraphState :=
  { initialState ("q".data) with
    chart_script := some ("plt.plot(df)".data),
    data := some (DataVal.single [("a".data, [1])]) }

/-! ## Helper lemmas -/

theorem runStatements_length (r : Str → Except Str Frame) (l : List Str) (i : Nat) :
    (runStatements r l i).length = l.length := by
  induction l generalizing i with
  | nil => rfl
  | cons a l ih => simp [runStatements, ih]

theorem runStatements_getD (r : Str → Except Str Frame) (l : List Str) (i j : Nat)
    (hj : j < l.length) :
    (runStatements r l i).getD j defaultEntry = mkEntry r (l.getD j []) (i + j) := by
  induction l generalizing i j with
  | nil => simp at hj
  | cons a l ih =>
    cases j with
    | zero => simp [runStatements]
    | succ j =>
      have hj' : j < l.length := by simpa using hj
      simp only [runStatements, List.getD_cons_succ]
      rw [ih (i + 1) j hj']
      congr 1
      omega

theorem runStatements_countP (r : Str → Except Str Frame) (l : List Str) (i : Nat) :
    (runStatements r l i).countP (fun e => e.error.isSome)
      = l.countP (fun s => isErrExc (r s)) := by
  induction l generalizing i with
  | nil => rfl
  | cons a l ih =>
    simp only [runStatements, List.countP_cons, ih]
    cases h : r a <;> simp [mkEntry, h, isErrExc]

/-- C1: for a multi-statement SQL blob with N statements, the executor
returns a multi-table result with exactly N entries in original order; the
entries of statements that raise carry the exception in `error` and the
1-based label `Error in Statement (j+1)` as `table_name`, the others carry
the column data; the number of error entries equals the number of failing
statements, and no failure aborts the rest of the batch. -/
theorem c1_multi_statement_batch (r : Str → Except Str Frame) (st : GraphState) (q : Str)
    (hq : st.sql_query = some q) (hm : is_multi_statement_sql q = true) :
    ∃ tables : List TableEntry,
      convert_dataframe r st = Except.ok { st with data := some (DataVal.multi tables) } ∧
      tables.length = (split_sql_statements q).length ∧
      (∀ j, j < (split_sql_statements q).length →
        match r ((split_sql_statements q).getD j []) with
        | Except.ok df =>
            (tables.getD j defaultEntry).error = none ∧
            (tables.getD j defaultEntry).dataframe = some df
        | Except.error e =>
            (tables.getD j defaultEntry).error = some e ∧
            (tables.getD j defaultEntry).dataframe = none ∧
            (tables.getD j defaultEntry).table_name
              = ("Error in Statement ".data) ++ natStr (j + 1)) ∧
      tables.countP (fun e => e.error.isSome)
        = (split_sql_statements q).countP (fun s => isErrExc (r s)) := by
  refine ⟨runStatements r (split_sql_statements q) 0, ?_, ?_, ?_, ?_⟩
  · simp [convert_dataframe, hq, hm]
  · exact runStatements_length r _ 0
  · intro j hj
    rw [runStatements_getD r _ 0 j hj]
    set x := (split_sql_statements q).getD j [] with hx
    cases h : r x <;> simp [mkEntry, h]
  · exact runStatements_countP r _ 0

/-- Closed instance of C1: a two-statement blob whose second statement
raises yields two entries, one error entry labeled `Error in Statement 2`. -/
theorem c1_witness :
    ∃ tables : List TableEntry,
      convert_dataframe rW stW
        = Except.ok { stW with data := some (DataVal.multi tables) } ∧
      tables.length = (split_sql_statements ("SELECT 1; SELECT 2".data)).length ∧
      (∀ j, j < (split_sql_statements ("SELECT 1; SELECT 2".data)).length →
        match rW ((split_sql_statements ("SELECT 1; SELECT 2".data)).getD j []) with
        | Except.ok df =>
            (tables.getD j defaultEntry).error = none ∧
            (tables.getD j defaultEntry).dataframe = some df
        | Except.error e =>
            (tables.getD j defaultEntry).error = some e ∧
            (tables.getD j defaultEntry).dataframe = none ∧
            (tables.getD j defaultEntry).table_name
              = ("Error in Statement ".data) ++ natStr (j + 1)) ∧
      tables.countP (fun e => e.error.isSome)
        = (split_sql_statements ("SELECT 1; SELECT 2".data)).countP
            (fun s => isErrExc (rW s)) :=
  c1_multi_statement_batch rW stW ("SELECT 1; SELECT 2".data) rfl (by decide)

/-- C10: every entry of a multi-table result, successful or failed,
carries a `sql_statement` field equal to the statement that was executed
for it, at the statement's original position. -/
theorem c10_sql_statement_field (r : Str → Except Str Frame) (st : GraphState) (q : Str)
    (hq : st.sql_query = some q) (hm : is_multi_statement_sql q = true) :
    ∃ tables : List TableEntry,
      convert_dataframe r st = Except.ok { st with data := some (DataVal.multi tables) } ∧
      tables.length = (split_sql_statements q).length ∧
      ∀ j, j < (split_sql_statements q).length →
        (tables.getD j defaultEntry).sql_statement
          = (split_sql_statements q).getD j [] := by
  refine ⟨runStatements r (split_sql_statements q) 0, ?_, ?_, ?_⟩
  · simp [convert_dataframe, hq, hm]
  · exact runStatements_length r _ 0
  · intro j hj
    rw [runStatements_getD r _ 0 j hj]
    set x := (split_sql_statements q).getD j [] with hx
    cases h : r x <;> simp [mkEntry, h]

/-- Closed instance of C10 on a blob whose statements all raise. -/
theorem c10_witness :
    ∃ tables : List TableEntry,
      convert_dataframe rW2 stW2
        = Except.ok { stW2 with data := some (DataVal.multi tables) } ∧
      tables.length = (split_sql_statements ("SELECT 1;\nSELECT 2;".data)).length ∧
      ∀ j, j < (split_sql_statements ("SELECT 1;\nSELECT 2;".data)).length →
        (tables.getD j defaultEntry).sql_statement
          = (split_sql_statements ("SELECT 1;\nSELECT 2;".data)).getD j [] :=
  c10_sql_statement_field rW2 stW2 ("SELECT 1;\nSELECT 2;".data) rfl (by decide)

/-- C3 counterexample: on `SELECT 1; -- comment\nSELECT 2;` the comment
sits at the end of a statement line, so it is not removed: the function
returns `["SELECT 1", "-- comment\nSELECT 2"]`, not the
`["SELECT 1", "SELECT 2"]` the claim states. -/
theorem c3_counterexample :
    split_sql_statements ("SELECT 1; -- comment\nSELECT 2;".data)
      = ["SELECT 1".data, ("-- comment\nSELECT 2".data)] ∧
    split_sql_statements ("SELECT 1; -- comment\nSELECT 2;".data)
      ≠ ["SELECT 1".data, "SELECT 2".data] := by decide

/-- C3 amended: only a comment occupying its own line is removed
(`SELECT 1;\n-- comment\nSELECT 2;` gives `["SELECT 1", "SELECT 2"]`); a
trailing comment after a statement on the same line is kept inside the
following fragment. -/
theorem c3_full_line_comments :
    split_sql_statements ("SELECT 1;\n-- comment\nSELECT 2;".data)
      = ["SELECT 1".data, "SELECT 2".data] ∧
    split_sql_statements ("SELECT 1; -- comment\nSELECT 2;".data)
      = ["SELECT 1".data, ("-- comment\nSELECT 2".data)] := by decide

/-- C7: the classifier returns `chart` exactly when the stripped,
lower-cased model response equals `chart`, and `table` in every other
case; it always returns one of the two tags.  `CHART` with surrounding
whitespace normalizes to `chart`, `maybe` falls back to `table`. -/
theorem c7_tag_normalization (q : Str) (llm : Str → Str) :
    (tag_question_type q llm
      = (if lowerL (pyStrip (llm (tagPromptFor q))) = "chart".data
         then "chart".data else "table".data)) ∧
    (tag_question_type q llm = "chart".data ∨ tag_question_type q llm = "table".data) ∧
    tag_question_type ("x".data) (fun _ => "  CHART ".data) = "chart".data ∧
    tag_question_type ("x".data) (fun _ => "maybe".data) = "table".data := by
  have key : tag_question_type q llm
      = (if lowerL (pyStrip (llm (tagPromptFor q))) = "chart".data
         then "chart".data else "table".data) := by
    by_cases h1 : lowerL (pyStrip (llm (tagPromptFor q))) = "chart".data
    · simp [tag_question_type, h1]
    · by_cases h2 : lowerL (pyStrip (llm (tagPromptFor q))) = "table".data
      · simp [tag_question_type, h1, h2]
      · simp [tag_question_type, h1, h2]
  refine ⟨key, ?_, by decide, by decide⟩
  rw [key]
  by_cases h : lowerL (pyStrip (llm (tagPromptFor q))) = "chart".data <;> simp [h]

/-- C5: the terminal assembly stage always populates `final_output` with a
non-empty outputs value, and the explicit `No valid output found.` message
appears exactly when neither data nor a chart output is present. -/
theorem c5_final_output_never_empty (toDf : DataVal → Except Str Frame) (st : GraphState) :
    (state_printer toDf st).final_output = some (outputsFor toDf st) ∧
    (outputsFor toDf st).isEmpty = false ∧
    (outputsFor toDf st).message
      = (if st.data.isNone && st.chart_output.isNone
         then some ("No valid output found.".data) else none) := by
  refine ⟨rfl, ?_, ?_⟩ <;>
  · rcases hd : st.data with _ | d
    · rcases hc : st.chart_output with _ | c <;>
        simp [outputsFor, hd, hc, Outputs.isEmpty]
    · rcases d with fr | tables
      · rcases htd : toDf (DataVal.single fr) with e | df <;>
          rcases hc : st.chart_output with _ | c <;>
          simp [outputsFor, hd, hc, htd, Outputs.isEmpty]
      · rcases hc : st.chart_output with _ | c <;>
          simp [outputsFor, hd, hc, Outputs.isEmpty]

/-- C9 counterexample: with no fence, the fallback keeps the line
`import os`, which contains no plotting-library call, so the returned
script has a line without any plotting-library call. -/
theorem c9_counterexample :
    pyFence (cleanPy ("import os\nplt.plot(df)".data)) = none ∧
    extract_python_code ("import os\nplt.plot(df)".data)
      = ("import os\nplt.plot(df)".data) ∧
    ("import os".data)
      ∈ splitOnChar '\n' (extract_python_code ("import os\nplt.plot(df)".data)) ∧
    plotCall ("import os".data) = false := by decide

/-- C9 amended: when no fenced block is found and some line matches, the
fallback returns exactly the lines containing one of the heuristic
keywords (`def `, `import `, `plt.`, `sns.`, `px.`, `fig.` — not only
plotting-library calls), joined by newlines and trimmed; every collected
line contains one of those keywords. -/
theorem c9_fallback_keyword_lines (text : Str)
    (h1 : pyFence (cleanPy text) = none)
    (h2 : ((splitOnChar '\n' (cleanPy text)).filter hasKw).isEmpty = false) :
    extract_python_code text
      = pyStrip (joinNl ((splitOnChar '\n' (cleanPy text)).filter hasKw)) ∧
    ∀ l ∈ (splitOnChar '\n' (cleanPy text)).filter hasKw, hasKw l = true := by
  constructor
  · simp [extract_python_code, h1, h2]
  · intro l hl
    exact List.of_mem_filter hl

/-- Closed instance of the amended C9: the `def` line is collected
although it contains no plotting-library call. -/
theorem c9_witness :
    extract_python_code ("def f():\nplt.plot(df)\nnote".data)
      = pyStrip (joinNl ((splitOnChar '\n'
          (cleanPy ("def f():\nplt.plot(df)\nnote".data))).filter hasKw)) :=
  (c9_fallback_keyword_lines ("def f():\nplt.plot(df)\nnote".data)
    (by decide) (by decide)).1

/-- C4: when the chart script is present and not an error marker and the
DataFrame conversion succeeds, a script that raises is caught: the node
returns normally with an error-tagged `chart_output`, and every normal
exit of the node — success, save failure, or script failure — leaves zero
open matplotlib figures. -/
theorem c4_chart_failure_contained (o : Oracles) (st : GraphState) (figs : Nat)
    (script : Str) (df : Frame)
    (hs : st.chart_script = some script)
    (h1 : script.isEmpty = false)
    (h2 : ("Error".data).isPrefixOf script = false)
    (h3 : o.toDf (st.data.getD (DataVal.single [])) = Except.ok df) :
    (∀ e, o.execChart 1 = Except.error e →
      execute_chart_code o st figs
        = Except.ok ({ st with
            chart_output := some (("Error executing chart code: ".data) ++ e) }, 0)) ∧
    (∀ st' f', execute_chart_code o st figs = Except.ok (st', f') → f' = 0) := by
  constructor
  · intro e he
    simp [execute_chart_code, hs, h1, h2, h3, he]
  · intro st' f' hr
    rcases hE : o.execChart 1 with e | n
    · simp [execute_chart_code, hs, h1, h2, h3, hE] at hr
      omega
    · rcases hSv : o.save with e2 | u <;>
        simp [execute_chart_code, hs, h1, h2, h3, hE, hSv] at hr <;>
        omega

/-- Closed instance of C4: the raising script yields a normal return with
an error-tagged chart output and zero open figures. -/
theorem c4_witness :
    execute_chart_code oW4 stW4 0
      = Except.ok ({ stW4 with
          chart_output := some (("Error executing chart code: ".data) ++ "boom".data) }, 0) :=
  (c4_chart_failure_contained oW4 stW4 0 ("plt.plot(df)".data) []
    rfl (by decide) (by decide) rfl).1 ("boom".data) rfl

theorem wordChar_not_space {c : Char} (h : wordChar c = true) : isSpaceC c = false := by
  cases hs : isSpaceC c
  · rfl
  · exfalso
    simp only [isSpaceC, Bool.or_eq_true, decide_eq_true_eq] at hs
    rcases hs with ((((h1 | h1) | h1) | h1) | h1) | h1 <;> subst h1 <;>
      exact absurd h (by decide)

theorem takeWhile_all_append (p : Char → Bool) :
    ∀ (a b : Str), (∀ c ∈ a, p c = true) → (∀ c, b.head? = some c → p c = false) →
      (a ++ b).takeWhile p = a := by
  intro a
  induction a with
  | nil =>
    intro b _ hb
    cases b with
    | nil => rfl
    | cons c b' => simp [List.takeWhile, hb c rfl]
  | cons x a ih =>
    intro b ha hb
    have hx : p x = true := ha x (by simp)
    simp only [List.cons_append, List.takeWhile, hx]
    exact congrArg (fun t => x :: t) (ih b (fun c hc => ha c (by simp [hc])) hb)

theorem fromScan_append (pre w post : Str)
    (hpre : containsSub ("from".data) (lowerL pre) = false)
    (hw : w.isEmpty = false)
    (hww : w.all wordChar = true)
    (hpost : post.head?.all (fun c => !wordChar c) = true) :
    fromScan (pre ++ ("FROM ".data) ++ w ++ post) = some w := by
  induction pre with
  | nil =>
    cases w with
    | nil => simp at hw
    | cons wc w' =>
      have hwc : wordChar wc = true := List.all_eq_true.mp hww wc (by simp)
      have hrest : ∀ c ∈ w', wordChar c = true :=
        fun c hc => List.all_eq_true.mp hww c (by simp [hc])
      have hpost' : ∀ c, post.head? = some c → wordChar c = false := by
        intro c hc
        rw [hc] at hpost
        simpa using hpost
      have htw : ((wc :: w') ++ post).takeWhile wordChar = wc :: w' :=
        takeWhile_all_append wordChar (wc :: w') post
          (by
            intro c hc
            rcases List.mem_cons.mp hc with h | h
            · exact h ▸ hwc
            · exact hrest c h)
          hpost'
      have hns : isSpaceC wc = false := wordChar_not_space hwc
      show fromScan ('F' :: 'R' :: 'O' :: 'M' :: ' ' :: ((wc :: w') ++ post)) = some (wc :: w')
      rw [fromScan]
      have hcond : lowerL (List.take 4 ('F' :: 'R' :: 'O' :: 'M' :: ' ' :: ((wc :: w') ++ post)))
          = "from".data := by
        have h4 : List.take 4 ('F' :: 'R' :: 'O' :: 'M' :: ' ' :: ((wc :: w') ++ post))
            = ['F', 'R', 'O', 'M'] := rfl
        rw [h4]; decide
      rw [if_pos hcond]
      have hdrop : List.drop 4 ('F' :: 'R' :: 'O' :: 'M' :: ' ' :: ((wc :: w') ++ post))
          = ' ' :: ((wc :: w') ++ post) := rfl
      rw [hdrop]
      have hsp : (' ' :: ((wc :: w') ++ post)).takeWhile isSpaceC = [' '] := by
        simp only [List.takeWhile, hns]
        rfl
      simp only [hdrop, hsp, List.length_cons, List.length_nil, Nat.zero_add,
        List.drop_succ_cons, List.drop_zero, htw]
      simp
  | cons c pre ih =>
    have hsplit : ("from".data).isPrefixOf (Char.toLower c :: lowerL pre) = false ∧
        containsSub ("from".data) (lowerL pre) = false := by
      have h := hpre
      rw [show lowerL (c :: pre) = Char.toLower c :: lowerL pre from rfl, containsSub] at h
      exact Bool.or_eq_false_iff.mp h
    show fromScan (c :: ((pre ++ ("FROM ".data)) ++ w ++ post)) = some w
    rw [fromScan]
    have hcond : ¬ (lowerL (List.take 4 (c :: ((pre ++ ("FROM ".data)) ++ w ++ post)))
        = "from".data) := by
      cases pre with
      | nil =>
        intro h
        rw [show List.take 4 (c :: ((([] : Str) ++ ("FROM ".data)) ++ w ++ post))
              = [c, 'F', 'R', 'O'] from rfl] at h
        rw [show lowerL [c, 'F', 'R', 'O'] = [Char.toLower c, 'f', 'r', 'o'] from rfl] at h
        rw [show ("from".data) = ['f', 'r', 'o', 'm'] from rfl] at h
        simp only [List.cons.injEq, and_true] at h
        exact absurd h.2.1 (by decide)
      | cons a pre2 =>
        cases pre2 with
        | nil =>
          intro h
          rw [show List.take 4 (c :: ((([a] : Str) ++ ("FROM ".data)) ++ w ++ post))
                = [c, a, 'F', 'R'] from rfl] at h
          rw [show lowerL [c, a, 'F', 'R']
                = [Char.toLower c, Char.toLower a, 'f', 'r'] from rfl] at h
          rw [show ("from".data) = ['f', 'r', 'o', 'm'] from rfl] at h
          simp only [List.cons.injEq, and_true] at h
          exact absurd h.2.2.1 (by decide)
        | cons b pre3 =>
          cases pre3 with
          | nil =>
            intro h
            rw [show List.take 4 (c :: ((([a, b] : Str) ++ ("FROM ".data)) ++ w ++ post))
                  = [c, a, b, 'F'] from rfl] at h
            rw [show lowerL [c, a, b, 'F']
                  = [Char.toLower c, Char.toLower a, Char.toLower b, 'f'] from rfl] at h
            rw [show ("from".data) = ['f', 'r', 'o', 'm'] from rfl] at h
            simp only [List.cons.injEq, and_true] at h
            exact absurd h.2.2.2 (by decide)
          | cons d pre4 =>
            intro h
            rw [show List.take 4 (c :: (((a :: b :: d :: pre4) ++ ("FROM ".data)) ++ w ++ post))
                  = [c, a, b, d] from rfl] at h
            rw [show lowerL [c, a, b, d]
                  = [Char.toLower c, Char.toLower a, Char.toLower b, Char.toLower d] from rfl] at h
            rw [show ("from".data) = ['f', 'r', 'o', 'm'] from rfl] at h
            simp only [List.cons.injEq, and_true] at h
            obtain ⟨h1, h2, h3, h4⟩ := h
            have hP : ("from".data).isPrefixOf
                (Char.toLower c :: lowerL (a :: b :: d :: pre4)) = true := by
              rw [show lowerL (a :: b :: d :: pre4)
                    = Char.toLower a :: Char.toLower b :: Char.toLower d :: lowerL pre4 from rfl]
              rw [h1, h2, h3, h4]
              rw [show ("from".data) = ['f', 'r', 'o', 'm'] from rfl]
              simp [List.isPrefixOf]
            exact Bool.false_ne_true (hsplit.1.symm.trans hP)
    rw [if_neg hcond]
    exact ih hsplit.2

/-- C8: when a (case-insensitive) `FROM` clause followed by an identifier
is present, the function returns that identifier; with no `FROM` clause it
scans comments for a name followed by `table`; otherwise it returns the
sentinel `Unknown Table`.  Concretely, `SELECT * FROM orders WHERE id=1`
yields `orders`, `SELECT 1` yields `Unknown Table`, and
`SELECT 1 -- orders table` yields `orders` via the comment scan. -/
theorem c8_table_name_extraction (pre w post : Str)
    (hpre : containsSub ("from".data) (lowerL pre) = false)
    (hw : w.isEmpty = false)
    (hww : w.all wordChar = true)
    (hpost : post.head?.all (fun c => !wordChar c) = true) :
    extract_table_name_from_sql (pre ++ ("FROM ".data) ++ w ++ post) = w ∧
    extract_table_name_from_sql ("SELECT * FROM orders WHERE id=1".data) = "orders".data ∧
    extract_table_name_from_sql ("SELECT 1".data) = "Unknown Table".data ∧
    extract_table_name_from_sql ("SELECT 1 -- orders table".data) = "orders".data := by
  refine ⟨?_, by decide, by decide, by decide⟩
  unfold extract_table_name_from_sql
  rw [fromScan_append pre w post hpre hw hww hpost]

/-- Closed instance of C8: the identifier after `FROM` is returned with
its original casing, independent of the surrounding clause text. -/
theorem c8_witness :
    extract_table_name_from_sql
        (("select x ".data) ++ ("FROM ".data) ++ ("orders".data) ++ (" where".data))
      = "orders".data :=
  (c8_table_name_extraction ("select x ".data) ("orders".data) (" where".data)
    (by decide) (by decide) (by decide) (by decide)).1

theorem convert_dataframe_ok_fields {r : Str → Except Str Frame} {s s' : GraphState}
    (h : convert_dataframe r s = Except.ok s') :
    s'.question = s.question ∧ s'.tag = s.tag ∧ s'.chart_output = s.chart_output := by
  simp only [convert_dataframe] at h
  split at h
  · simp only [Except.ok.injEq] at h
    subst h
    simp
  · split at h
    · simp only [Except.ok.injEq] at h
      subst h
      simp
    · simp at h

theorem outputsFor_chart_none {toDf : DataVal → Except Str Frame} {s : GraphState}
    (h : s.chart_output = none) : (outputsFor toDf s).chart = none := by
  rcases hd : s.data with _ | d
  · simp [outputsFor, hd, h, Outputs.isEmpty]
  · rcases d with fr | tables
    · rcases htd : toDf (DataVal.single fr) with e | df <;>
        simp [outputsFor, hd, h, htd, Outputs.isEmpty]
    · simp [outputsFor, hd, h, Outputs.isEmpty]

/-- C6: a question tagged `table` routes straight to the printer, so the
final output has no chart slot; a question tagged `chart` whose single
SQL statement succeeds but whose chart script raises still delivers the
tabular data alongside an error-tagged chart slot — the two slots are
assembled independently. -/
theorem c6_routing_and_partial_success (o : Oracles) (q : Str) :
    (tag_question_type q o.tagLlm = "table".data →
      ∀ st figs, run_dag o q = Except.ok (st, figs) →
        ∃ outs, st.final_output = some outs ∧ outs.chart = none) ∧
    (∀ fr df err,
      tag_question_type q o.tagLlm = "chart".data →
      is_multi_statement_sql (extract_sql_code (o.sqlGen q)) = false →
      o.runSql (extract_sql_code (o.sqlGen q)) = Except.ok fr →
      o.toDf (DataVal.single fr) = Except.ok df →
      (extract_python_code (o.chartLlm q (DataVal.single fr))).isEmpty = false →
      ("Error".data).isPrefixOf (extract_python_code (o.chartLlm q (DataVal.single fr))) = false →
      o.execChart 1 = Except.error err →
      ∃ st outs, run_dag o q = Except.ok (st, 0) ∧ st.final_output = some outs ∧
        outs.dataframe = some df ∧
        outs.chart = some (("Error executing chart code: ".data) ++ err)) := by
  constructor
  · intro hT st figs hrun
    simp only [run_dag] at hrun
    rcases hc : convert_dataframe o.runSql
        (generate_sql o.sqlGen (process_question o.tagLlm (initialState q))) with e | s3
    · rw [hc] at hrun
      simp at hrun
    · rw [hc] at hrun
      have hfields := convert_dataframe_ok_fields hc
      have htag : s3.tag = some ("table".data) := by
        rw [hfields.2.1]
        simp [generate_sql, process_question, initialState, hT]
      have hco : s3.chart_output = none := by
        rw [hfields.2.2]
        simp [generate_sql, process_question, initialState]
      have hnext : (conditional_router s3).next = some ("table".data) := by
        simp [conditional_router, htag]
      simp only [hnext] at hrun
      rw [if_neg (by decide)] at hrun
      simp only [Except.ok.injEq, Prod.mk.injEq] at hrun
      obtain ⟨hst, hfigs⟩ := hrun
      refine ⟨outputsFor o.toDf (conditional_router s3), ?_, ?_⟩
      · rw [← hst]
        rfl
      · exact outputsFor_chart_none (by simp [conditional_router, hco])
  · intro fr df err hT hM hR hD hs1 hs2 hE
    have hrun : run_dag o q = Except.ok
        (state_printer o.toDf
          { question := q, sql_query := some (extract_sql_code (o.sqlGen q)),
            data := some (DataVal.single fr), tag := some ("chart".data),
            chart_script := some (extract_python_code (o.chartLlm q (DataVal.single fr))),
            chart_output := some (("Error executing chart code: ".data) ++ err),
            final_output := none, next := some ("chart".data) }, 0) := by
      simp [run_dag, process_question, generate_sql, initialState, convert_dataframe,
        conditional_router, generate_chart_instructions, execute_chart_code,
        hT, hM, hR, hD, hs1, hs2, hE]
    refine ⟨_, outputsFor o.toDf _, hrun, rfl, ?_, ?_⟩
    · simp [outputsFor, hD, Outputs.isEmpty]
    · simp [outputsFor, hD, Outputs.isEmpty]

/-- Closed instances of C6: the table-routed run under `oA` has no chart
slot; the chart-routed run under `oB` carries both the data frame and the
error-tagged chart slot. -/
theorem c6_witness :
    (∃ outs, stA.final_output = some outs ∧ outs.chart = none) ∧
    (∃ st outs, run_dag oB ("q".data) = Except.ok (st, 0) ∧
      st.final_output = some outs ∧
      outs.dataframe = some frW ∧
      outs.chart = some (("Error executing chart code: ".data) ++ ("boom".data))) := by
  constructor
  · exact (c6_routing_and_partial_success oA ("q".data)).1 (by decide) stA 0 rfl
  · exact (c6_routing_and_partial_success oB ("q".data)).2 frW frW ("boom".data)
      (by decide) (by decide) rfl rfl (by decide) (by decide) rfl

theorem containsSub_iff (pat : Str) (s : Str) :
    containsSub pat s = true ↔ ∃ a b, s = a ++ pat ++ b := by
  induction s with
  | nil =>
    simp only [containsSub, List.isEmpty_iff]
    constructor
    · intro h
      exact ⟨[], [], by simp [h]⟩
    · rintro ⟨a, b, hab⟩
      have hl := congrArg List.length hab
      simp only [List.length_nil, List.length_append] at hl
      have : pat.length = 0 := by omega
      exact List.length_eq_zero.mp this
  | cons c rest ih =>
    rw [containsSub]
    simp only [Bool.or_eq_true, ih, List.isPrefixOf_iff_prefix]
    constructor
    · rintro (⟨t, ht⟩ | ⟨a, b, rfl⟩)
      · exact ⟨[], t, by simp [← ht]⟩
      · exact ⟨c :: a, b, by simp⟩
    · rintro ⟨a, b, hab⟩
      cases a with
      | nil =>
        left
        exact ⟨b, by simpa using hab.symm⟩
      | cons a0 a' =>
        right
        simp only [List.cons_append] at hab
        injection hab with h1 h2
        exact ⟨a', b, h2⟩

theorem pyReplaceFuel_no_occ (pat rep : Str) :
    ∀ (s : Str) (f : Nat), s.length ≤ f → containsSub pat s = false →
      pyReplaceFuel pat rep f s = s := by
  intro s
  induction s with
  | nil => intro f _ _; cases f <;> rfl
  | cons c rest ih =>
    intro f hf hc
    cases f with
    | zero => simp at hf
    | succ f' =>
      rw [containsSub] at hc
      obtain ⟨h1, h2⟩ := Bool.or_eq_false_iff.mp hc
      rw [pyReplaceFuel, if_neg (by simp [h1])]
      simp only [List.length_cons] at hf
      rw [ih f' (by omega) h2]

theorem pyReplace_no_occ (pat rep s : Str) (h : containsSub pat s = false) :
    pyReplace pat rep s = s :=
  pyReplaceFuel_no_occ pat rep s s.length (Nat.le_refl _) h

theorem splitSubFuel_irrel (sep : Str) :
    ∀ (f1 f2 : Nat) (s : Str), s.length ≤ f1 → s.length ≤ f2 →
      splitSubFuel sep f1 s = splitSubFuel sep f2 s := by
  intro f1
  induction f1 with
  | zero =>
    intro f2 s h1 _
    have : s = [] := List.length_eq_zero.mp (Nat.le_zero.mp h1)
    subst this
    cases f2 <;> rfl
  | succ f1' ih =>
    intro f2 s h1 h2
    cases s with
    | nil => cases f2 <;> rfl
    | cons c rest =>
      cases f2 with
      | zero => simp at h2
      | succ f2' =>
        simp only [List.length_cons] at h1 h2
        rw [splitSubFuel, splitSubFuel]
        by_cases hp : sep.isPrefixOf (c :: rest) = true
        · rw [if_pos hp, if_pos hp]
          congr 1
          have hd : (List.drop (sep.length - 1) rest).length ≤ rest.length := by
            rw [List.length_drop]
            omega
          exact ih f2' _ (by omega) (by omega)
        · rw [if_neg hp, if_neg hp]
          exact congrArg (consHead c) (ih f2' rest (by omega) (by omega))

theorem splitSubFuel_no_occ (sep : Str) :
    ∀ (s : Str) (f : Nat), s.length ≤ f → containsSub sep s = false →
      splitSubFuel sep f s = [s] := by
  intro s
  induction s with
  | nil => intro f _ _; cases f <;> rfl
  | cons c rest ih =>
    intro f hf hc
    cases f with
    | zero => simp at hf
    | succ f' =>
      rw [containsSub] at hc
      obtain ⟨h1, h2⟩ := Bool.or_eq_false_iff.mp hc
      rw [splitSubFuel, if_neg (by simp [h1])]
      simp only [List.length_cons] at hf
      rw [ih f' (by omega) h2]
      rfl

theorem splitSub_no_occ (sep s : Str) (h : containsSub sep s = false) :
    splitSub sep s = [s] :=
  splitSubFuel_no_occ sep s s.length (Nat.le_refl _) h

theorem splitSubFuel_append (g : Char) (sepT v : Str) :
    ∀ (u : Str) (f : Nat), (u ++ ((g :: sepT) ++ v)).length ≤ f →
      (∀ c ∈ u, c ≠ g) →
      splitSubFuel (g :: sepT) f (u ++ ((g :: sepT) ++ v))
        = u :: splitSubFuel (g :: sepT) v.length v := by
  intro u
  induction u with
  | nil =>
    intro f hf hu
    cases f with
    | zero => simp at hf
    | succ f' =>
      show splitSubFuel (g :: sepT) (f' + 1) (g :: (sepT ++ v)) = [] :: _
      have hp : (g :: sepT).isPrefixOf (g :: (sepT ++ v)) = true := by
        rw [List.isPrefixOf_iff_prefix]
        exact List.prefix_append (g :: sepT) v
      rw [splitSubFuel, if_pos hp]
      have hdrop : List.drop ((g :: sepT).length - 1) (sepT ++ v) = v := by
        simp only [List.length_cons, Nat.add_sub_cancel]
        exact List.drop_left sepT v
      rw [hdrop]
      congr 1
      simp only [List.nil_append, List.length_append, List.length_cons] at hf
      exact splitSubFuel_irrel (g :: sepT) f' v.length v (by omega) (Nat.le_refl _)
  | cons c u' ih =>
    intro f hf hu
    cases f with
    | zero => simp at hf
    | succ f' =>
      show splitSubFuel (g :: sepT) (f' + 1) (c :: (u' ++ ((g :: sepT) ++ v))) = (c :: u') :: _
      have hc : c ≠ g := hu c (by simp)
      have hbeq : (g == c) = false := beq_eq_false_iff_ne.mpr (Ne.symm hc)
      have hp : (g :: sepT).isPrefixOf (c :: (u' ++ ((g :: sepT) ++ v))) = false := by
        simp [List.isPrefixOf, hbeq]
      rw [splitSubFuel, if_neg (by rw [hp]; decide)]
      simp only [List.length_cons, List.length_append] at hf
      rw [ih f' (by simp [List.length_append]; omega) (fun d hd => hu d (by simp [hd]))]
      rfl

theorem splitSub_append (g : Char) (sepT u v : Str) (hu : ∀ c ∈ u, c ≠ g) :
    splitSub (g :: sepT) (u ++ ((g :: sepT) ++ v)) = u :: splitSub (g :: sepT) v :=
  splitSubFuel_append g sepT v u _ (Nat.le_refl _) hu

theorem containsSub_append_left (g : Char) (sepT B R : Str) (hB : ∀ c ∈ B, c ≠ g) :
    containsSub (g :: sepT) (B ++ R) = containsSub (g :: sepT) R := by
  induction B with
  | nil => rfl
  | cons c B' ih =>
    rw [List.cons_append, containsSub]
    have hbeq : (g == c) = false :=
      beq_eq_false_iff_ne.mpr (Ne.symm (hB c (by simp)))
    simp only [List.isPrefixOf, hbeq, Bool.false_and, Bool.false_or]
    exact ih (fun d hd => hB d (by simp [hd]))

/-- C2 amended: for a text containing a ```sql fenced block (the prose
and the fenced content free of stray backticks, the text free of the
`SQLQuery:` and `your_table_name` tokens and already stripped, and the
text after the closing fence not opening another ```sql fence), the
function returns the fenced content LOWER-CASED and trimmed — not the
content verbatim — because the whole text is lower-cased before the
fence is cut out. -/
theorem c2_fenced_block_lowercased (pre body post : Str)
    (hstrip : pyStrip (pre ++ ("```sql".data) ++ body ++ ("```".data) ++ post)
        = pre ++ ("```sql".data) ++ body ++ ("```".data) ++ post)
    (hsq : containsSub ("SQLQuery:".data)
        (pre ++ ("```sql".data) ++ body ++ ("```".data) ++ post) = false)
    (hyt : containsSub ytn
        (pre ++ ("```sql".data) ++ body ++ ("```".data) ++ post) = false)
    (hpre : ∀ c ∈ lowerL pre, c ≠ btick)
    (hbody : ∀ c ∈ lowerL body, c ≠ btick)
    (hpost : containsSub ("```sql".data) (("```".data) ++ lowerL post) = false)
    (hyt2 : containsSub ytn (pyStrip (lowerL body)) = false) :
    extract_sql_code (pre ++ ("```sql".data) ++ body ++ ("```".data) ++ post)
      = pyStrip (lowerL body) := by
  simp only [List.append_assoc] at hstrip hsq hyt ⊢
  set T := pre ++ (("```sql".data) ++ (body ++ (("```".data) ++ post))) with hTdef
  have hsepF : ("```sql".data) = btick :: ("``sql".data) := rfl
  have hsepG : ("```".data) = btick :: ("``".data) := rfl
  have hlowF : List.map Char.toLower ("```sql".data) = ("```sql".data) := rfl
  have hlowG : List.map Char.toLower ("```".data) = ("```".data) := rfl
  have hlow : lowerL T
      = lowerL pre ++ (("```sql".data) ++ (lowerL body ++ (("```".data) ++ lowerL post))) := by
    simp only [hTdef, lowerL, List.map_append, hlowF, hlowG]
  have h1 : pyReplace ("SQLQuery:".data) [] T = T := pyReplace_no_occ _ _ _ hsq
  have h2 : pyReplace ytn ssd T = T := pyReplace_no_occ _ _ _ hyt
  have hguard : containsSub ("```sql".data) (lowerL T) = true := by
    rw [hlow]
    exact (containsSub_iff _ _).mpr
      ⟨lowerL pre, lowerL body ++ (("```".data) ++ lowerL post), by simp⟩
  have hnocc : containsSub ("```sql".data)
      (lowerL body ++ (("```".data) ++ lowerL post)) = false := by
    rw [hsepF]
    rw [containsSub_append_left btick ("``sql".data) (lowerL body) _ hbody]
    rw [← hsepF]
    exact hpost
  have hsplit1 : splitSub ("```sql".data) (lowerL T)
      = (lowerL pre) :: [lowerL body ++ (("```".data) ++ lowerL post)] := by
    rw [hlow, hsepF]
    rw [splitSub_append btick ("``sql".data) (lowerL pre)
      (lowerL body ++ (("```".data) ++ lowerL post)) hpre]
    rw [← hsepF]
    rw [splitSub_no_occ _ _ hnocc]
  have hsplit2 : splitSub ("```".data) (lowerL body ++ (("```".data) ++ lowerL post))
      = (lowerL body) :: splitSub ("```".data) (lowerL post) := by
    rw [hsepG]
    exact splitSub_append btick ("``".data) (lowerL body) (lowerL post) hbody
  rw [extract_sql_code]
  rw [h1, hstrip, h2]
  rw [if_pos hguard]
  rw [hsplit1]
  simp only [List.getD_cons_succ, List.getD_cons_zero]
  rw [hsplit2]
  simp only [List.getD_cons_zero]
  exact pyReplace_no_occ _ _ _ hyt2

/-- C2 counterexample: the fenced content `SELECT 1` comes back
lower-cased as `select 1`, so the round-trip the claim states fails. -/
theorem c2_counterexample :
    extract_sql_code ("```sql\nSELECT 1\n```".data) = "select 1".data ∧
    extract_sql_code ("```sql\nSELECT 1\n```".data) ≠ pyStrip ("\nSELECT 1\n".data) := by
  decide

/-- Closed instance of the amended C2: prose around the fence is
discarded and the fenced content comes back lower-cased and trimmed. -/
theorem c2_witness :
    extract_sql_code (("Sure:\n".data) ++ ("```sql".data)
        ++ ("\nSELECT name FROM users\n".data) ++ ("```".data) ++ ("\nDone".data))
      = pyStrip (lowerL ("\nSELECT name FROM users\n".data)) :=
  c2_fenced_block_lowercased ("Sure:\n".data) ("\nSELECT name FROM users\n".data)
    ("\nDone".data) (by decide) (by decide) (by decide) (by decide) (by decide)
    (by decide) (by decide)
